import Mathlib

/-!
Verification of the per-client relay session of the Revolt voice assistant
server (`src/main.py`).  The relay sits between a downstream browser
websocket and the upstream Gemini Live websocket.  We embed the message
translation and session-loop logic of `main.py` as pure Lean functions:

* JSON envelopes exchanged with the downstream client become the types
  `ClientEnvelope` (inbound, a `type` tag plus optional `data` field, as the
  code reads them with `message.get("type")` / `message["data"]`) and
  `ServerMsg` (outbound, one constructor per `"type"` the code emits).
* Upstream messages sent to Gemini become `GeminiOut`
  (`setup_session`'s handshake, and the `clientContent` turns built by
  `send_audio_to_gemini`, `send_text_to_gemini` and `interrupt_gemini`;
  the `turns` field is optional because `interrupt_gemini` omits it).
* Upstream messages received from Gemini become `GeminiData`: the code
  only tests key membership (`"serverContent" in message`,
  `"turnComplete" in server_content`, `"setupComplete" in message`), so
  presence of `serverContent`/`modelTurn` is an `Option` and presence of
  the `turnComplete`/`setupComplete` keys is a `Bool`.
* The mutable session attributes `is_connected` and `gemini_ws` (None or a
  handle) become `SessionState` with two booleans.
* `await ws.send(...)` can raise; each send function takes a `sendFails`
  flag saying whether the underlying send raises (the code catches the
  exception and only logs it).
* The `websocket_endpoint` dispatch loop becomes `handle_client_message` /
  `runLoop`, and a whole session run (connect attempt followed by the
  client-message loop and the `finally` cleanup) becomes `runSession`,
  returning the ordered traces of upstream sends and downstream emissions.
-/

/-- The `inlineData` object of a content part: `{"mimeType": ..., "data": ...}`. -/
structure InlineData where
  mimeType : String
  data : String
deriving DecidableEq, Repr

/-- A content part as the code reads it: it tests `"inlineData" in part`
and `"text" in part`, so both fields are optional and may coexist. -/
structure ContentPart where
  inlineData : Option InlineData
  text : Option String
deriving DecidableEq, Repr

/-- One turn of a `clientContent` message: `{"role": ..., "parts": [...]}`. -/
structure Turn where
  role : String
  parts : List ContentPart
deriving DecidableEq, Repr

/-- A message sent to the upstream Gemini websocket: either the one-time
`setup` handshake of `setup_session`, or a `clientContent` message.  The
`turns` field is `none` when the JSON has no `"turns"` key
(`interrupt_gemini` sends `{"clientContent": {"turnComplete": false}}`). -/
inductive GeminiOut where
  | setup
  | clientContent (turns : Option (List Turn)) (turnComplete : Bool)
deriving DecidableEq, Repr

/-- The `serverContent` object of an upstream message.  `modelTurn` is the
`parts` list of the `"modelTurn"` object when that key is present;
`turnComplete` records presence of the `"turnComplete"` key (the code tests
membership, never the value). -/
structure ServerContent where
  modelTurn : Option (List ContentPart)
  turnComplete : Bool
deriving DecidableEq, Repr

/-- A parsed upstream message as `handle_gemini_message` inspects it:
presence of the `"serverContent"` key, and presence of the
`"setupComplete"` key. -/
structure GeminiData where
  serverContent : Option ServerContent
  setupComplete : Bool
deriving DecidableEq, Repr

/-- An envelope the server sends to the downstream client, one constructor
per `"type"` value emitted anywhere in `main.py`. -/
inductive ServerMsg where
  | connection_status (status : String)
  | error (message : String)
  | audio_response (audio_data : String)
  | text_response (text : String)
  | turn_complete
  | setup_complete
  | pong
deriving DecidableEq, Repr

/-- An envelope received from the downstream client: `message.get("type")`
(absent key gives `none`) and the optional `"data"` field read by
`message["data"]`. -/
structure ClientEnvelope where
  type : Option String
  data : Option String
deriving DecidableEq, Repr

/-- The session attributes of `GeminiLiveSession` relevant to control flow:
`is_connected` and whether `gemini_ws` holds a handle (`gemini_ws ≠ None`). -/
structure SessionState where
  is_connected : Bool
  gemini_ws : Bool
deriving DecidableEq, Repr

/-- Translation of one model-turn part, following the loop body in
`handle_gemini_message`: `if "inlineData" in part and
part["inlineData"]["mimeType"] == "audio/pcm"` forward an `audio_response`,
`elif "text" in part` forward a `text_response`, otherwise nothing. -/
def handlePart (p : ContentPart) : List ServerMsg :=
  match p.inlineData with
  | some d =>
      if d.mimeType = "audio/pcm" then [ServerMsg.audio_response d.data]
      else
        match p.text with
        | some t => [ServerMsg.text_response t]
        | none => []
  | none =>
      match p.text with
      | some t => [ServerMsg.text_response t]
      | none => []

/-- The `for part in parts` loop of `handle_gemini_message`: the downstream
emissions of each part, in part order. -/
def handleModelTurn : List ContentPart → List ServerMsg
  | [] => []
  | p :: rest => handlePart p ++ handleModelTurn rest

/-- `GeminiLiveSession.handle_gemini_message`: dispatch on the parsed
upstream message.  `if "serverContent"`: within it, `if "modelTurn"` emit
the per-part envelopes, `elif "turnComplete"` emit `turn_complete`;
`elif "setupComplete"` emit `setup_complete`; anything else is dropped. -/
def handle_gemini_message (m : GeminiData) : List ServerMsg :=
  match m.serverContent with
  | some sc =>
      match sc.modelTurn with
      | some parts => handleModelTurn parts
      | none => if sc.turnComplete then [ServerMsg.turn_complete] else []
  | none =>
      if m.setupComplete then [ServerMsg.setup_complete] else []

/-- Result of one of the session's send methods: the session state after
the call, the messages actually delivered upstream, and any downstream
emissions (the send methods emit none). -/
structure SendResult where
  state : SessionState
  sent : List GeminiOut
  down : List ServerMsg
deriving DecidableEq, Repr

/-- The upstream turn built by `send_audio_to_gemini`: one user turn whose
single part is `inlineData {mimeType: "audio/pcm", data}`, `turnComplete`
true. -/
def audioTurnMessage (audio_data : String) : GeminiOut :=
  GeminiOut.clientContent
    (some [⟨"user", [⟨some ⟨"audio/pcm", audio_data⟩, none⟩]⟩]) true

/-- The upstream turn built by `send_text_to_gemini`: one user turn whose
single part is a text part, `turnComplete` true. -/
def textTurnMessage (text : String) : GeminiOut :=
  GeminiOut.clientContent (some [⟨"user", [⟨none, some text⟩]⟩]) true

/-- `GeminiLiveSession.send_audio_to_gemini`: return early when
`not self.is_connected or not self.gemini_ws`; otherwise send the audio
turn, catching and logging a send failure (state unchanged). -/
def send_audio_to_gemini (st : SessionState) (sendFails : Bool)
    (audio_data : String) : SendResult :=
  if !st.is_connected || !st.gemini_ws then ⟨st, [], []⟩
  else if sendFails then ⟨st, [], []⟩
  else ⟨st, [audioTurnMessage audio_data], []⟩

/-- `GeminiLiveSession.send_text_to_gemini`: same guard and failure
handling as the audio send, with a text part. -/
def send_text_to_gemini (st : SessionState) (sendFails : Bool)
    (text : String) : SendResult :=
  if !st.is_connected || !st.gemini_ws then ⟨st, [], []⟩
  else if sendFails then ⟨st, [], []⟩
  else ⟨st, [textTurnMessage text], []⟩

/-- `GeminiLiveSession.interrupt_gemini`: same guard; sends
`{"clientContent": {"turnComplete": false}}` (no `"turns"` key), catching
and logging a send failure. -/
def interrupt_gemini (st : SessionState) (sendFails : Bool) : SendResult :=
  if !st.is_connected || !st.gemini_ws then ⟨st, [], []⟩
  else if sendFails then ⟨st, [], []⟩
  else ⟨st, [GeminiOut.clientContent none false], []⟩

/-- Outcome of the single upstream connection attempt of
`connect_to_gemini`: either `websockets.connect` and the handshake send
succeed, or the attempt raises with some detail string (missing API key,
unreachable host, rejected auth), leaving `gemini_ws = None` and
`is_connected = False`. -/
inductive ConnectOutcome where
  | ok
  | fail (detail : String)
deriving DecidableEq, Repr

/-- Result of `connect_to_gemini`: session state afterwards, upstream sends
and downstream emissions, in order. -/
structure ConnectResult where
  state : SessionState
  up : List GeminiOut
  down : List ServerMsg
deriving DecidableEq, Repr

/-- `GeminiLiveSession.connect_to_gemini`: on success set the handle and
`is_connected`, send the `setup` handshake via `setup_session`, then notify
the client with `connection_status: connected` (and start the listener
task).  On failure the `except` block sends a single `error` envelope with
the failure detail; nothing was sent upstream and the state still has no
handle. -/
def connect_to_gemini : ConnectOutcome → ConnectResult
  | ConnectOutcome.ok =>
      ⟨⟨true, true⟩, [GeminiOut.setup], [ServerMsg.connection_status "connected"]⟩
  | ConnectOutcome.fail d =>
      ⟨⟨false, false⟩, [],
        [ServerMsg.error ("Failed to connect to AI service: " ++ d)]⟩

/-- Result of one iteration of the `websocket_endpoint` message loop:
either a normal step (new state, upstream sends, downstream emissions), or
an uncaught exception in the loop body (e.g. `message["data"]` on an
envelope with no `"data"` key), which ends the loop. -/
inductive StepResult where
  | ok (state : SessionState) (up : List GeminiOut) (down : List ServerMsg)
  | fault
deriving DecidableEq, Repr

/-- The dispatch of one client envelope in `websocket_endpoint`:
`if message_type == "audio_data"` / `"text_data"` / `"interrupt"` /
`"ping"`, with no `else` branch — any other `type` value (including a
missing key) does nothing.  For the two data-carrying kinds the code
evaluates `message["data"]` first, so a missing `"data"` key raises. -/
def handle_client_message (st : SessionState) (sendFails : Bool)
    (m : ClientEnvelope) : StepResult :=
  if m.type = some "audio_data" then
    match m.data with
    | some d =>
        let r := send_audio_to_gemini st sendFails d
        StepResult.ok r.state r.sent r.down
    | none => StepResult.fault
  else if m.type = some "text_data" then
    match m.data with
    | some d =>
        let r := send_text_to_gemini st sendFails d
        StepResult.ok r.state r.sent r.down
    | none => StepResult.fault
  else if m.type = some "interrupt" then
    let r := interrupt_gemini st sendFails
    StepResult.ok r.state r.sent r.down
  else if m.type = some "ping" then
    StepResult.ok st [] [ServerMsg.pong]
  else
    StepResult.ok st [] []

/-- The ordered traces produced by a session run: messages delivered
upstream, envelopes emitted downstream, and the final session state. -/
structure RunResult where
  upstream : List GeminiOut
  down : List ServerMsg
  final : SessionState
deriving DecidableEq, Repr

/-- The `async for message in websocket.iter_json()` loop of
`websocket_endpoint`, dispatching each envelope in order; a fault in the
loop body ends the loop (caught by the endpoint's outer handler). -/
def runLoop (sendFails : Bool) : SessionState → List ClientEnvelope → RunResult
  | st, [] => ⟨[], [], st⟩
  | st, m :: rest =>
      match handle_client_message st sendFails m with
      | StepResult.ok st2 up down =>
          let r := runLoop sendFails st2 rest
          ⟨up ++ r.upstream, down ++ r.down, r.final⟩
      | StepResult.fault => ⟨[], [], st⟩

/-- `GeminiLiveSession.close`: close the upstream handle if any and clear
`is_connected`; the handle attribute itself keeps its value. -/
def close (st : SessionState) : SessionState :=
  { st with is_connected := false }

/-- One whole run of `websocket_endpoint` for a session: the upstream
connection attempt (`connect_to_gemini`), then the client-message loop over
the envelopes received until the client disconnects, then the `finally`
cleanup (`session.close()`).  Traces from the connect phase precede those
of the loop. -/
def runSession (o : ConnectOutcome) (sendFails : Bool)
    (msgs : List ClientEnvelope) : RunResult :=
  let c := connect_to_gemini o
  let r := runLoop sendFails c.state msgs
  ⟨c.up ++ r.upstream, c.down ++ r.down, close r.final⟩

/-- A raw frame arriving on the upstream websocket: either it parses
(`json.loads` succeeds) to a `GeminiData`, or it is malformed and
`json.loads` raises `JSONDecodeError`. -/
inductive RawFrame where
  | valid (m : GeminiData)
  | malformed
deriving DecidableEq, Repr

/-- One iteration of the `async for message in self.gemini_ws` loop of
`listen_to_gemini`: a malformed frame is logged and dropped (the inner
`except` continues the loop); a valid frame is handled by
`handle_gemini_message`. -/
def processFrame : RawFrame → List ServerMsg
  | RawFrame.valid m => handle_gemini_message m
  | RawFrame.malformed => []

/-- The downstream emissions of the `listen_to_gemini` loop over a sequence
of upstream frames, in order. -/
def listenOutput : List RawFrame → List ServerMsg
  | [] => []
  | f :: rest => processFrame f ++ listenOutput rest

/-- `GeminiLiveSession.listen_to_gemini`: relay every frame until the
upstream connection closes; when it closes (`ConnectionClosed`), clear
`is_connected` and notify the client with `connection_status:
disconnected`. -/
def listen_to_gemini (st : SessionState) (frames : List RawFrame)
    (closedByPeer : Bool) : SessionState × List ServerMsg :=
  if closedByPeer then
    ({ st with is_connected := false },
      listenOutput frames ++ [ServerMsg.connection_status "disconnected"])
  else (st, listenOutput frames)

/-- The handshake message test: `true` exactly on `GeminiOut.setup`. -/
def isSetupSend : GeminiOut → Bool
  | GeminiOut.setup => true
  | GeminiOut.clientContent _ _ => false

/-- The `error` envelope test. -/
def isErrorEnvelope : ServerMsg → Bool
  | ServerMsg.error _ => true
  | _ => false

/-- The `turn_complete` envelope test. -/
def isTurnCompleteEnvelope : ServerMsg → Bool
  | ServerMsg.turn_complete => true
  | _ => false

/-- The `text_response` envelope test. -/
def isTextEnvelope : ServerMsg → Bool
  | ServerMsg.text_response _ => true
  | _ => false

/-- The `audio_response` envelope test. -/
def isAudioEnvelope : ServerMsg → Bool
  | ServerMsg.audio_response _ => true
  | _ => false

/-- A pure text part: no `inlineData`, a `text` field present. -/
def isTextPartShape (p : ContentPart) : Bool :=
  p.inlineData.isNone && p.text.isSome

/-- A pure recognized-audio part: `inlineData` with MIME type exactly
`"audio/pcm"`, no `text` field. -/
def isAudioPartShape (p : ContentPart) : Bool :=
  (match p.inlineData with
   | some d => d.mimeType == "audio/pcm"
   | none => false) && p.text.isNone

/-- The downstream envelope a simple model-turn part maps to: a text part
to `text_response` with its text, a recognized-audio part to
`audio_response` with its payload. -/
def partEmits (p : ContentPart) (e : ServerMsg) : Prop :=
  (∃ t, p.inlineData = none ∧ p.text = some t ∧ e = ServerMsg.text_response t) ∨
  (∃ d, p.inlineData = some d ∧ d.mimeType = "audio/pcm" ∧
    e = ServerMsg.audio_response d.data)

/-- Concatenated parts of all turns of an upstream message. -/
def turnsParts : List Turn → List ContentPart
  | [] => []
  | t :: rest => t.parts ++ turnsParts rest

/-- The content parts carried by a message sent upstream. -/
def contentParts : GeminiOut → List ContentPart
  | GeminiOut.setup => []
  | GeminiOut.clientContent none _ => []
  | GeminiOut.clientContent (some ts) _ => turnsParts ts

/-! ## Helper lemmas -/

theorem handleModelTurn_append (a b : List ContentPart) :
    handleModelTurn (a ++ b) = handleModelTurn a ++ handleModelTurn b := by
  induction a with
  | nil => simp [handleModelTurn]
  | cons p rest ih => simp [handleModelTurn, ih]

theorem listenOutput_append (a b : List RawFrame) :
    listenOutput (a ++ b) = listenOutput a ++ listenOutput b := by
  induction a with
  | nil => simp [listenOutput]
  | cons f rest ih => simp [listenOutput, ih]

theorem handlePart_no_turn_complete (p : ContentPart) :
    List.countP isTurnCompleteEnvelope (handlePart p) = 0 := by
  unfold handlePart
  cases p.inlineData with
  | some d =>
      by_cases h : d.mimeType = "audio/pcm"
      · simp [h, isTurnCompleteEnvelope]
      · cases p.text <;> simp [h, isTurnCompleteEnvelope]
  | none => cases p.text <;> simp [isTurnCompleteEnvelope]

theorem handleModelTurn_no_turn_complete (parts : List ContentPart) :
    List.countP isTurnCompleteEnvelope (handleModelTurn parts) = 0 := by
  induction parts with
  | nil => simp [handleModelTurn]
  | cons p rest ih =>
      simp [handleModelTurn, List.countP_append, ih, handlePart_no_turn_complete]

/-- The upstream sends of a loop step (`[]` for a faulting step). -/
def stepUp : StepResult → List GeminiOut
  | StepResult.ok _ up _ => up
  | StepResult.fault => []

theorem send_audio_no_setup (st : SessionState) (f : Bool) (d : String) :
    List.countP isSetupSend (send_audio_to_gemini st f d).sent = 0 := by
  unfold send_audio_to_gemini
  split_ifs <;> simp [isSetupSend, audioTurnMessage]

theorem send_text_no_setup (st : SessionState) (f : Bool) (d : String) :
    List.countP isSetupSend (send_text_to_gemini st f d).sent = 0 := by
  unfold send_text_to_gemini
  split_ifs <;> simp [isSetupSend, textTurnMessage]

theorem interrupt_no_setup (st : SessionState) (f : Bool) :
    List.countP isSetupSend (interrupt_gemini st f).sent = 0 := by
  unfold interrupt_gemini
  split_ifs <;> simp [isSetupSend]

theorem handle_client_message_no_setup (st : SessionState) (f : Bool)
    (m : ClientEnvelope) :
    List.countP isSetupSend (stepUp (handle_client_message st f m)) = 0 := by
  unfold handle_client_message
  split_ifs
  · cases m.data with
    | some d => simpa [stepUp] using send_audio_no_setup st f d
    | none => simp [stepUp]
  · cases m.data with
    | some d => simpa [stepUp] using send_text_no_setup st f d
    | none => simp [stepUp]
  · simpa [stepUp] using interrupt_no_setup st f
  · simp [stepUp]
  · simp [stepUp]

theorem runLoop_upstream_no_setup (f : Bool) (msgs : List ClientEnvelope) :
    ∀ st : SessionState,
      List.countP isSetupSend (runLoop f st msgs).upstream = 0 := by
  induction msgs with
  | nil => intro st; simp [runLoop]
  | cons m rest ih =>
      intro st
      have hstep := handle_client_message_no_setup st f m
      unfold runLoop
      cases h : handle_client_message st f m with
      | ok st2 up down =>
          rw [h] at hstep
          simp only [stepUp] at hstep
          simp [List.countP_append, hstep, ih st2]
      | fault => simp

theorem handle_client_message_disconnected (f : Bool) (m : ClientEnvelope) :
    handle_client_message ⟨false, false⟩ f m = StepResult.fault ∨
    ∃ down, handle_client_message ⟨false, false⟩ f m =
        StepResult.ok ⟨false, false⟩ [] down ∧
      ∀ e ∈ down, e = ServerMsg.pong := by
  unfold handle_client_message
  split_ifs
  · cases m.data with
    | some d =>
        right
        exact ⟨[], by simp [send_audio_to_gemini], by simp⟩
    | none => left; rfl
  · cases m.data with
    | some d =>
        right
        exact ⟨[], by simp [send_text_to_gemini], by simp⟩
    | none => left; rfl
  · right
    exact ⟨[], by simp [interrupt_gemini], by simp⟩
  · right
    exact ⟨[ServerMsg.pong], rfl, by simp⟩
  · right
    exact ⟨[], rfl, by simp⟩

theorem runLoop_disconnected (f : Bool) (msgs : List ClientEnvelope) :
    (runLoop f ⟨false, false⟩ msgs).upstream = [] ∧
    ∀ e ∈ (runLoop f ⟨false, false⟩ msgs).down, e = ServerMsg.pong := by
  induction msgs with
  | nil => simp [runLoop]
  | cons m rest ih =>
      unfold runLoop
      rcases handle_client_message_disconnected f m with h | ⟨down, h, hdown⟩
      · rw [h]
        simp
      · rw [h]
        refine ⟨by simp [ih.1], ?_⟩
        intro e he
        simp only [List.mem_append] at he
        rcases he with he | he
        · exact hdown e he
        · exact ih.2 e he

/-! ## Claim theorems -/

/-- C5: on a connected session, a downstream `audio_data` envelope with
payload `X` makes the relay send upstream exactly one `clientContent`
message with a single user turn whose single part is an inline binary part
of MIME type `"audio/pcm"` and data `X`, with `turnComplete = true`; the
session state is unchanged and nothing is emitted downstream. -/
theorem audio_data_translation (st : SessionState) (x : String)
    (h1 : st.is_connected = true) (h2 : st.gemini_ws = true) :
    send_audio_to_gemini st false x =
      ⟨st, [GeminiOut.clientContent
        (some [⟨"user", [⟨some ⟨"audio/pcm", x⟩, none⟩]⟩]) true], []⟩ := by
  simp [send_audio_to_gemini, audioTurnMessage, h1, h2]

theorem audio_data_translation_witness :
    send_audio_to_gemini ⟨true, true⟩ false "QUJD" =
      ⟨⟨true, true⟩, [GeminiOut.clientContent
        (some [⟨"user", [⟨some ⟨"audio/pcm", "QUJD"⟩, none⟩]⟩]) true], []⟩ :=
  audio_data_translation ⟨true, true⟩ "QUJD" rfl rfl

/-- C6: on a connected session, a downstream `interrupt` envelope makes the
relay send upstream exactly one `clientContent` message with no `turns`
field — hence carrying no content parts — and `turnComplete = false`. -/
theorem interrupt_translation (st : SessionState)
    (h1 : st.is_connected = true) (h2 : st.gemini_ws = true) :
    interrupt_gemini st false =
      ⟨st, [GeminiOut.clientContent none false], []⟩ ∧
    contentParts (GeminiOut.clientContent none false) = [] := by
  exact ⟨by simp [interrupt_gemini, h1, h2], rfl⟩

theorem interrupt_translation_witness :
    interrupt_gemini ⟨true, true⟩ false =
      ⟨⟨true, true⟩, [GeminiOut.clientContent none false], []⟩ ∧
    contentParts (GeminiOut.clientContent none false) = [] :=
  interrupt_translation ⟨true, true⟩ rfl rfl

/-- C8: a malformed (non-parseable) upstream frame is dropped — the
listener's behaviour over a frame sequence with the malformed frame
inserted, including its final state and every envelope forwarded for the
surrounding valid frames, is identical to its behaviour without it; the
loop does not terminate on it. -/
theorem malformed_frame_dropped_session_continues (st : SessionState)
    (pre post : List RawFrame) (closedByPeer : Bool) :
    listen_to_gemini st (pre ++ RawFrame.malformed :: post) closedByPeer =
      listen_to_gemini st (pre ++ post) closedByPeer := by
  unfold listen_to_gemini
  simp [listenOutput_append, listenOutput, processFrame]

theorem malformed_frame_dropped_witness :
    listen_to_gemini ⟨true, true⟩
        ([RawFrame.valid ⟨none, true⟩] ++ RawFrame.malformed ::
          [RawFrame.valid ⟨some ⟨none, true⟩, false⟩]) false =
      listen_to_gemini ⟨true, true⟩
        ([RawFrame.valid ⟨none, true⟩] ++
          [RawFrame.valid ⟨some ⟨none, true⟩, false⟩]) false :=
  malformed_frame_dropped_session_continues ⟨true, true⟩
    [RawFrame.valid ⟨none, true⟩]
    [RawFrame.valid ⟨some ⟨none, true⟩, false⟩] false

/-- C9: a downstream envelope whose kind is none of `audio_data`,
`text_data`, `interrupt`, `ping` has no observable effect: no upstream
send, no downstream emission, session state unchanged, loop continues. -/
theorem unknown_client_kind_ignored (st : SessionState) (f : Bool)
    (m : ClientEnvelope)
    (h1 : m.type ≠ some "audio_data") (h2 : m.type ≠ some "text_data")
    (h3 : m.type ≠ some "interrupt") (h4 : m.type ≠ some "ping") :
    handle_client_message st f m = StepResult.ok st [] [] := by
  simp [handle_client_message, h1, h2, h3, h4]

theorem unknown_client_kind_ignored_witness :
    handle_client_message ⟨true, true⟩ false ⟨some "video_data", some "xyz"⟩ =
      StepResult.ok ⟨true, true⟩ [] [] :=
  unknown_client_kind_ignored ⟨true, true⟩ false ⟨some "video_data", some "xyz"⟩
    (by decide) (by decide) (by decide) (by decide)

/-- C10: within an upstream model turn, an inline-binary part whose MIME
type is not `"audio/pcm"` and which has no text field contributes no
downstream envelope: the translation of the message with such a part
inserted equals the translation without it. -/
theorem unrecognized_inline_part_dropped (mime d : String)
    (pre post : List ContentPart) (tc b : Bool)
    (h : mime ≠ "audio/pcm") :
    handle_gemini_message
        ⟨some ⟨some (pre ++ ⟨some ⟨mime, d⟩, none⟩ :: post), tc⟩, b⟩ =
      handle_gemini_message ⟨some ⟨some (pre ++ post), tc⟩, b⟩ := by
  simp [handle_gemini_message, handleModelTurn_append, handleModelTurn,
    handlePart, h]

theorem unrecognized_inline_part_dropped_witness :
    handle_gemini_message
        ⟨some ⟨some ([⟨none, some "hi"⟩] ++
          ⟨some ⟨"image/png", "AAAA"⟩, none⟩ :: [⟨none, some "bye"⟩]), true⟩,
          false⟩ =
      handle_gemini_message
        ⟨some ⟨some ([⟨none, some "hi"⟩] ++ [⟨none, some "bye"⟩]), true⟩,
          false⟩ :=
  unrecognized_inline_part_dropped "image/png" "AAAA"
    [⟨none, some "hi"⟩] [⟨none, some "bye"⟩] true false (by decide)

/-- C1: per session run, the `setup` handshake goes upstream exactly once
and first — when the connection attempt succeeds the upstream trace starts
with `setup` and contains no further `setup`, so every client-originated
content turn is forwarded strictly after it; when the attempt fails,
nothing at all is forwarded upstream. -/
theorem handshake_sent_once_before_content (f : Bool)
    (msgs : List ClientEnvelope) :
    (∃ rest, (runSession ConnectOutcome.ok f msgs).upstream =
        GeminiOut.setup :: rest ∧ List.countP isSetupSend rest = 0) ∧
    ∀ d, (runSession (ConnectOutcome.fail d) f msgs).upstream = [] := by
  constructor
  · refine ⟨(runLoop f ⟨true, true⟩ msgs).upstream, ?_, ?_⟩
    · simp [runSession, connect_to_gemini]
    · exact runLoop_upstream_no_setup f msgs ⟨true, true⟩
  · intro d
    have h := (runLoop_disconnected f msgs).1
    simp [runSession, connect_to_gemini, h]

theorem handshake_sent_once_before_content_witness :
    (∃ rest, (runSession ConnectOutcome.ok false
        [⟨some "audio_data", some "QUJD"⟩]).upstream =
        GeminiOut.setup :: rest ∧ List.countP isSetupSend rest = 0) ∧
    ∀ d, (runSession (ConnectOutcome.fail d) false
        [⟨some "audio_data", some "QUJD"⟩]).upstream = [] :=
  handshake_sent_once_before_content false [⟨some "audio_data", some "QUJD"⟩]

/-- C2 (counterexample): after a failed upstream connection attempt the
session does not transition to a closed state — the downstream loop keeps
processing envelopes.  Concretely, a session whose connection attempt
fails and which then receives a `ping` emits the error envelope followed
by a `pong`: message processing continues after the error, contradicting
"then transitions to the Closed state ... no further message processing
within that session". -/
theorem connect_failure_not_closed_counterexample :
    (runSession (ConnectOutcome.fail "connection refused") false
        [⟨some "ping", none⟩]).down =
      [ServerMsg.error "Failed to connect to AI service: connection refused",
        ServerMsg.pong] := by decide

/-- C2 (amended): if the upstream connection attempt fails, the session
emits exactly one `error` envelope downstream, first, carrying the failure
detail, and never sends anything upstream (no retry); but it does not
close — the downstream loop keeps running, every later emission being at
most a `pong` reply to a `ping` (content envelopes are silently dropped). -/
theorem connect_failure_single_error_then_loop_continues (d : String)
    (f : Bool) (msgs : List ClientEnvelope) :
    (runSession (ConnectOutcome.fail d) f msgs).upstream = [] ∧
    (runSession (ConnectOutcome.fail d) f msgs).down.head? =
      some (ServerMsg.error ("Failed to connect to AI service: " ++ d)) ∧
    List.countP isErrorEnvelope
      (runSession (ConnectOutcome.fail d) f msgs).down = 1 ∧
    ∀ e ∈ (runSession (ConnectOutcome.fail d) f msgs).down.tail,
      e = ServerMsg.pong := by
  have h := runLoop_disconnected f msgs
  have hpong : ∀ e ∈ (runLoop f ⟨false, false⟩ msgs).down,
      e = ServerMsg.pong := h.2
  have hcount : List.countP isErrorEnvelope
      (runLoop f ⟨false, false⟩ msgs).down = 0 := by
    rw [List.countP_eq_zero]
    intro e he
    rw [hpong e he]
    simp [isErrorEnvelope]
  refine ⟨?_, ?_, ?_, ?_⟩
  · simp [runSession, connect_to_gemini, h.1]
  · simp [runSession, connect_to_gemini]
  · simp [runSession, connect_to_gemini, List.countP_cons, hcount,
      isErrorEnvelope]
  · intro e he
    simp only [runSession, connect_to_gemini, List.singleton_append,
      List.tail_cons] at he
    exact hpong e he

theorem connect_failure_single_error_witness :
    (runSession (ConnectOutcome.fail "timeout") false
        [⟨some "ping", none⟩, ⟨some "audio_data", some "QUJD"⟩]).upstream
        = [] ∧
    (runSession (ConnectOutcome.fail "timeout") false
        [⟨some "ping", none⟩, ⟨some "audio_data", some "QUJD"⟩]).down.head? =
      some (ServerMsg.error ("Failed to connect to AI service: " ++
        "timeout")) ∧
    List.countP isErrorEnvelope
      (runSession (ConnectOutcome.fail "timeout") false
        [⟨some "ping", none⟩, ⟨some "audio_data", some "QUJD"⟩]).down = 1 ∧
    ∀ e ∈ (runSession (ConnectOutcome.fail "timeout") false
        [⟨some "ping", none⟩, ⟨some "audio_data", some "QUJD"⟩]).down.tail,
      e = ServerMsg.pong :=
  connect_failure_single_error_then_loop_continues "timeout" false
    [⟨some "ping", none⟩, ⟨some "audio_data", some "QUJD"⟩]

/-- C3 (counterexample): a `serverContent` message that carries both a
`turnComplete` marker and a model turn emits only the part envelopes — no
`turn_complete` envelope — because the code checks `modelTurn` first and
`turnComplete` only in an `elif`. -/
theorem turn_complete_dropped_counterexample :
    handle_gemini_message
        ⟨some ⟨some [⟨none, some "All done."⟩], true⟩, false⟩ =
      [ServerMsg.text_response "All done."] ∧
    ServerMsg.turn_complete ∉
      handle_gemini_message
        ⟨some ⟨some [⟨none, some "All done."⟩], true⟩, false⟩ := by decide

/-- C3 (amended): a `turn_complete` envelope is emitted — exactly once —
for a `serverContent` message precisely when the message carries the
turn-completion marker and has no model turn; when a model turn is also
present, only the per-part envelopes are emitted and the marker is
ignored. -/
theorem turn_complete_iff_marker_without_model_turn (sc : ServerContent)
    (b : Bool) :
    List.countP isTurnCompleteEnvelope
        (handle_gemini_message ⟨some sc, b⟩) =
      if sc.modelTurn.isNone && sc.turnComplete then 1 else 0 := by
  cases hm : sc.modelTurn with
  | some parts =>
      simp [handle_gemini_message, hm, handleModelTurn_no_turn_complete]
  | none =>
      cases htc : sc.turnComplete <;>
        simp [handle_gemini_message, hm, htc, isTurnCompleteEnvelope]

theorem turn_complete_iff_marker_witness :
    List.countP isTurnCompleteEnvelope
        (handle_gemini_message ⟨some ⟨none, true⟩, false⟩) =
      if (none : Option (List ContentPart)).isNone && true then 1 else 0 :=
  turn_complete_iff_marker_without_model_turn ⟨none, true⟩ false

/-- C7 (counterexample): a send to the upstream connection that fails is
not treated as a close signal — on a connected session the failed audio
send leaves the state unchanged (still marked connected, handle kept) and
the session continues to accept sends: a subsequent send goes through. -/
theorem send_failure_no_teardown_counterexample :
    (send_audio_to_gemini ⟨true, true⟩ true "QUJD").state = ⟨true, true⟩ ∧
    (send_audio_to_gemini
        (send_audio_to_gemini ⟨true, true⟩ true "QUJD").state
        false "RUVG").sent ≠ [] := by decide

/-- C7 (amended): a failed send on the upstream connection is caught and
only logged: the session state is unchanged, nothing is delivered upstream
and nothing is emitted downstream, for the audio, text and interrupt send
paths alike — no teardown is triggered by the send path.  Only the
upstream listener reacts to a closed connection, by clearing the
connected flag. -/
theorem send_failure_logged_session_continues (st : SessionState)
    (x t : String) (frames : List RawFrame) :
    (send_audio_to_gemini st true x).state = st ∧
    (send_audio_to_gemini st true x).sent = [] ∧
    (send_audio_to_gemini st true x).down = [] ∧
    (send_text_to_gemini st true t).state = st ∧
    (send_text_to_gemini st true t).sent = [] ∧
    (send_text_to_gemini st true t).down = [] ∧
    (interrupt_gemini st true).state = st ∧
    (interrupt_gemini st true).sent = [] ∧
    (listen_to_gemini st frames true).1.is_connected = false := by
  refine ⟨?_, ?_, ?_, ?_, ?_, ?_, ?_, ?_, ?_⟩ <;>
    simp [send_audio_to_gemini, send_text_to_gemini, interrupt_gemini,
      listen_to_gemini]

theorem send_failure_logged_witness :
    (send_audio_to_gemini ⟨true, true⟩ true "QUJD").state = ⟨true, true⟩ ∧
    (send_audio_to_gemini ⟨true, true⟩ true "QUJD").sent = [] ∧
    (send_audio_to_gemini ⟨true, true⟩ true "QUJD").down = [] ∧
    (send_text_to_gemini ⟨true, true⟩ true "hello").state = ⟨true, true⟩ ∧
    (send_text_to_gemini ⟨true, true⟩ true "hello").sent = [] ∧
    (send_text_to_gemini ⟨true, true⟩ true "hello").down = [] ∧
    (interrupt_gemini ⟨true, true⟩ true).state = ⟨true, true⟩ ∧
    (interrupt_gemini ⟨true, true⟩ true).sent = [] ∧
    (listen_to_gemini ⟨true, true⟩ [] true).1.is_connected = false :=
  send_failure_logged_session_continues ⟨true, true⟩ "QUJD" "hello" []

theorem handlePart_text (p : ContentPart) (t : String)
    (hinl : p.inlineData = none) (ht : p.text = some t) :
    handlePart p = [ServerMsg.text_response t] := by
  simp [handlePart, hinl, ht]

theorem handlePart_audio (p : ContentPart) (d : InlineData)
    (hinl : p.inlineData = some d) (hm : d.mimeType = "audio/pcm") :
    handlePart p = [ServerMsg.audio_response d.data] := by
  simp [handlePart, hinl, hm]

theorem handleModelTurn_simple (parts : List ContentPart)
    (h : ∀ p ∈ parts, isTextPartShape p = true ∨ isAudioPartShape p = true) :
    List.Forall₂ partEmits parts (handleModelTurn parts) ∧
    List.countP isTextEnvelope (handleModelTurn parts) =
      List.countP isTextPartShape parts ∧
    List.countP isAudioEnvelope (handleModelTurn parts) =
      List.countP isAudioPartShape parts := by
  induction parts with
  | nil => exact ⟨List.Forall₂.nil, rfl, rfl⟩
  | cons p rest ih =>
      have hp := h p (List.mem_cons_self p rest)
      have hrest := ih (fun q hq => h q (List.mem_cons_of_mem p hq))
      have hcons : handleModelTurn (p :: rest) =
          handlePart p ++ handleModelTurn rest := rfl
      rcases hp with htext | haudio
      · have hconj := htext
        simp only [isTextPartShape, Bool.and_eq_true,
          Option.isNone_iff_eq_none, Option.isSome_iff_exists] at hconj
        obtain ⟨hinl, t, ht⟩ := hconj
        have hpp := handlePart_text p t hinl ht
        have hshapeA : isAudioPartShape p = false := by
          simp [isAudioPartShape, hinl]
        refine ⟨?_, ?_, ?_⟩
        · rw [hcons, hpp]
          exact List.Forall₂.cons (Or.inl ⟨t, hinl, ht, rfl⟩) hrest.1
        · rw [hcons, hpp, List.countP_append, List.countP_cons,
            hrest.2.1]
          simp [isTextEnvelope, htext, Nat.add_comm]
        · rw [hcons, hpp, List.countP_append, List.countP_cons,
            hrest.2.2]
          simp [isAudioEnvelope, hshapeA]
      · have hconj := haudio
        simp only [isAudioPartShape, Bool.and_eq_true,
          Option.isNone_iff_eq_none] at hconj
        obtain ⟨hmatch, htnone⟩ := hconj
        cases hinl : p.inlineData with
        | none => rw [hinl] at hmatch; cases hmatch
        | some d =>
            rw [hinl] at hmatch
            have hm : d.mimeType = "audio/pcm" := by simpa using hmatch
            have hpp := handlePart_audio p d hinl hm
            have hshapeT : isTextPartShape p = false := by
              simp [isTextPartShape, hinl]
            refine ⟨?_, ?_, ?_⟩
            · rw [hcons, hpp]
              exact List.Forall₂.cons (Or.inr ⟨d, hinl, hm, rfl⟩) hrest.1
            · rw [hcons, hpp, List.countP_append, List.countP_cons,
                hrest.2.1]
              simp [isTextEnvelope, hshapeT]
            · rw [hcons, hpp, List.countP_append, List.countP_cons,
                hrest.2.2]
              simp [isAudioEnvelope, haudio, Nat.add_comm]

/-- C4: an upstream `serverContent` model turn whose parts are each either
a text part or a recognized-audio inline-binary part, interleaved in any
order, is translated to exactly one envelope per part — `text_response`
for each text part, `audio_response` for each audio part — preserving the
per-part order, with the counts of emitted `text_response` and
`audio_response` envelopes equal to the counts of text and audio parts. -/
theorem model_turn_parts_translated_in_order (parts : List ContentPart)
    (tc b : Bool)
    (h : ∀ p ∈ parts, isTextPartShape p = true ∨ isAudioPartShape p = true) :
    List.Forall₂ partEmits parts
      (handle_gemini_message ⟨some ⟨some parts, tc⟩, b⟩) ∧
    List.countP isTextEnvelope
        (handle_gemini_message ⟨some ⟨some parts, tc⟩, b⟩) =
      List.countP isTextPartShape parts ∧
    List.countP isAudioEnvelope
        (handle_gemini_message ⟨some ⟨some parts, tc⟩, b⟩) =
      List.countP isAudioPartShape parts := by
  simpa [handle_gemini_message] using handleModelTurn_simple parts h

theorem model_turn_parts_translated_witness :
    List.Forall₂ partEmits
      [⟨none, some "hello"⟩, ⟨some ⟨"audio/pcm", "QUJD"⟩, none⟩,
        ⟨none, some "bye"⟩]
      (handle_gemini_message ⟨some ⟨some [⟨none, some "hello"⟩,
        ⟨some ⟨"audio/pcm", "QUJD"⟩, none⟩, ⟨none, some "bye"⟩], true⟩,
        false⟩) ∧
    List.countP isTextEnvelope
        (handle_gemini_message ⟨some ⟨some [⟨none, some "hello"⟩,
          ⟨some ⟨"audio/pcm", "QUJD"⟩, none⟩, ⟨none, some "bye"⟩], true⟩,
          false⟩) =
      List.countP isTextPartShape [⟨none, some "hello"⟩,
        ⟨some ⟨"audio/pcm", "QUJD"⟩, none⟩, ⟨none, some "bye"⟩] ∧
    List.countP isAudioEnvelope
        (handle_gemini_message ⟨some ⟨some [⟨none, some "hello"⟩,
          ⟨some ⟨"audio/pcm", "QUJD"⟩, none⟩, ⟨none, some "bye"⟩], true⟩,
          false⟩) =
      List.countP isAudioPartShape [⟨none, some "hello"⟩,
        ⟨some ⟨"audio/pcm", "QUJD"⟩, none⟩, ⟨none, some "bye"⟩] :=
  model_turn_parts_translated_in_order
    [⟨none, some "hello"⟩, ⟨some ⟨"audio/pcm", "QUJD"⟩, none⟩,
      ⟨none, some "bye"⟩] true false (by decide)
